import Mathlib

/-!
Verification development for the Voice-to-Airtable service (`src/main.py`).

The Python program is shallowly embedded: every external effect (the LLM
completion call plus JSON parsing of its reply, and each Airtable HTTP
request) is passed in as an explicit outcome value, and each function
returns, besides its result, the list of store requests it issued.  Python
exceptions that the source catches are routed to the corresponding
`except`-branch value; exceptions the source does not catch are modelled
with `Except.error`.  JSON values are modelled by `JVal` (numbers as
rationals).  Pydantic v2 lax validation of the model's parsed reply is
modelled field by field (`vStr`, `vOptStr`, `vFloat`, `vOptInt`).
-/

namespace VTA

/-- JSON values as returned by `json.loads` / `response.json()`. -/
inductive JVal where
  | null
  | bool (b : Bool)
  | num (q : Rat)
  | str (s : String)
  | arr (xs : List JVal)
  | obj (kvs : List (String × JVal))

/-- Lookup in a JSON object with a default, like Python `dict.get(k, d)`. -/
def objGetD (kvs : List (String × JVal)) (k : String) (d : JVal) : JVal :=
  match kvs.find? (fun kv => kv.1 == k) with
  | some kv => kv.2
  | none => d

/-- Python `v.get(k, d)`: raises `AttributeError` when `v` is not a dict. -/
def pyGetD (v : JVal) (k : String) (d : JVal) : Except String JVal :=
  match v with
  | .obj kvs => .ok (objGetD kvs k d)
  | _ => .error "AttributeError: object has no attribute get"

/-- Python truthiness of a JSON value. -/
def pyTruthy : JVal → Bool
  | .null => false
  | .bool b => b
  | .num q => !(q == 0)
  | .str s => !(s == "")
  | .arr xs => !xs.isEmpty
  | .obj kvs => !kvs.isEmpty

/-- Python `xs[0]`: first element of a list, first character of a string,
`TypeError` otherwise.  Only reached on truthy (hence non-empty) values. -/
def pyIndex0 : JVal → Except String JVal
  | .arr (x :: _) => .ok x
  | .arr [] => .error "IndexError"
  | .str s => if s == "" then .error "IndexError" else .ok (.str (s.take 1))
  | _ => .error "TypeError: object is not subscriptable"

/-- Python truthiness of an `Optional[str]` (`None` and `""` are falsey). -/
def truthyOpt : Option String → Bool
  | none => false
  | some s => !(s == "")

/-- Python f-string rendering of an `Optional[str]` (`None` prints as `None`). -/
def showOpt : Option String → String
  | none => "None"
  | some s => s

/-- Python `a or b` for strings (`""` is falsey). -/
def strOr (a b : String) : String := if a == "" then b else a

/-- Python `opt or d` for `Optional[str]` values. -/
def pyOrStr (o : Option String) (d : String) : String :=
  match o with
  | some s => if s == "" then d else s
  | none => d

/-- Value of a decimal digit character. -/
def digitVal? (c : Char) : Option Nat :=
  List.indexOf? c ['0', '1', '2', '3', '4', '5', '6', '7', '8', '9']

/-- Natural number denoted by a non-empty digit string. -/
def natOfDigits : List Char → Option Nat
  | [] => none
  | cs =>
    cs.foldl (fun acc c =>
      match acc, digitVal? c with
      | some a, some d => some (a * 10 + d)
      | _, _ => none) (some 0)

/-- Integer denoted by an optionally signed digit string, as Python
`int(s)` (surrounding-whitespace stripping and underscores not modelled;
no claim exercises them). -/
def pyStrToInt? (s : String) : Option Int :=
  match s.data with
  | '-' :: rest => (natOfDigits rest).map (fun n => -(n : Int))
  | '+' :: rest => (natOfDigits rest).map (fun n => (n : Int))
  | cs => (natOfDigits cs).map (fun n => (n : Int))

/-- Decimal string to rational, approximating Python `float(s)` for the
sign/digits/point/digits forms (exponents, leading-dot and trailing-dot
forms are not modelled; no claim exercises them). -/
def parseDecimalQ (s : String) : Option Rat :=
  match s.splitOn "." with
  | [a] => (pyStrToInt? a).map (fun n => (n : Rat))
  | [a, b] =>
    match pyStrToInt? a, natOfDigits b.data with
    | some n, some f =>
      let frac : Rat := (f : Rat) / ((10 : Rat) ^ b.length)
      some (if a.startsWith "-" then (n : Rat) - frac else (n : Rat) + frac)
    | _, _ => none
  | _ => none

/-- Pydantic v2 lax validation of a required `str` field. -/
def vStr : JVal → Except String String
  | .str s => .ok s
  | _ => .error "validation error: str expected"

/-- Pydantic v2 lax validation of an `Optional[str]` field. -/
def vOptStr : JVal → Except String (Option String)
  | .null => .ok none
  | .str s => .ok (some s)
  | _ => .error "validation error: str or None expected"

/-- Pydantic v2 lax validation of a `float` field (numbers, and numeric
strings via decimal parsing; booleans are rejected as in pydantic v2). -/
def vFloat : JVal → Except String Rat
  | .num q => .ok q
  | .str s =>
    match parseDecimalQ s with
    | some q => .ok q
    | none => .error "validation error: float expected"
  | _ => .error "validation error: float expected"

/-- Pydantic v2 lax validation of an `Optional[int]` field: `None`, integral
numbers, and integer strings pass; everything else (e.g. `"thirty"`) raises. -/
def vOptInt : JVal → Except String (Option Int)
  | .null => .ok none
  | .num q => if q.den == 1 then .ok (some q.num) else .error "validation error: int expected"
  | .str s =>
    match pyStrToInt? s with
    | some n => .ok (some n)
    | none => .error "validation error: int expected"
  | _ => .error "validation error: int or None expected"

/-- Outcome of one `messages.create` call followed by code-fence stripping
and `json.loads` (`src/main.py` lines 341-358 and the analogous extractor
bodies): the call itself may raise, the reply may fail to parse, or it
parses to a JSON value. -/
inductive LLMOutcome where
  | callError (msg : String)
  | parseError (msg : String)
  | parsed (v : JVal)

/-- Result of intent classification (`IntentResult`, `src/main.py` 95-100). -/
structure IntentResult where
  intent : String
  confidence : Rat
  message : Option String := none
  lead_identifier : Option String := none
deriving Repr, DecidableEq

/-- Field gathering and pydantic validation for `IntentResult(...)`
(`src/main.py` 360-365): `result.get` pulls each key with its default, then
each field is validated against its annotation. -/
def validateIntentPayload (v : JVal) : Except String IntentResult := do
  let iv ← pyGetD v "intent" (.str "unknown")
  let cv ← pyGetD v "confidence" (.num (1/2))
  let mv ← pyGetD v "reasoning" .null
  let lv ← pyGetD v "lead_identifier" .null
  let intent ← vStr iv
  let confidence ← vFloat cv
  let message ← vOptStr mv
  let lead_identifier ← vOptStr lv
  return { intent := intent, confidence := confidence,
           message := message, lead_identifier := lead_identifier }

/-- `classify_intent` (`src/main.py` 338-368).  Any exception inside the
`try` block (call failure, parse failure, validation failure) yields
`IntentResult(intent="unknown", confidence=0.0, message=str(e))`. -/
def classify_intent (transcription : String) (o : LLMOutcome) : IntentResult :=
  match o with
  | .callError e => { intent := "unknown", confidence := 0, message := some e }
  | .parseError e => { intent := "unknown", confidence := 0, message := some e }
  | .parsed v =>
    match validateIntentPayload v with
    | .ok r => r
    | .error e => { intent := "unknown", confidence := 0, message := some e }

/-- `ExtractedLead` (`src/main.py` 103-113). -/
structure ExtractedLead where
  customer_name : Option String := none
  contact_phone : Option String := none
  contact_email : Option String := none
  property_address : Option String := none
  lead_source : Option String := none
  job_segment : Option String := none
  priority : Option String := none
  initial_notes : Option String := none
  raw_transcription : String
deriving Repr, DecidableEq

/-- Extracted attribute block of `ExtractedLead` before `raw_transcription`
is attached. -/
structure LeadPayload where
  customer_name : Option String
  contact_phone : Option String
  contact_email : Option String
  property_address : Option String
  lead_source : Option String
  job_segment : Option String
  priority : Option String
  initial_notes : Option String

/-- Field gathering and validation for `ExtractedLead(...)`
(`src/main.py` 393-403). -/
def validateLeadPayload (v : JVal) : Except String LeadPayload := do
  let a ← pyGetD v "customer_name" .null
  let b ← pyGetD v "contact_phone" .null
  let c ← pyGetD v "contact_email" .null
  let d ← pyGetD v "property_address" .null
  let e ← pyGetD v "lead_source" .null
  let f ← pyGetD v "job_segment" .null
  let g ← pyGetD v "priority" .null
  let h ← pyGetD v "initial_notes" .null
  let customer_name ← vOptStr a
  let contact_phone ← vOptStr b
  let contact_email ← vOptStr c
  let property_address ← vOptStr d
  let lead_source ← vOptStr e
  let job_segment ← vOptStr f
  let priority ← vOptStr g
  let initial_notes ← vOptStr h
  return { customer_name := customer_name, contact_phone := contact_phone,
           contact_email := contact_email, property_address := property_address,
           lead_source := lead_source, job_segment := job_segment,
           priority := priority, initial_notes := initial_notes }

/-- `extract_lead_fields` (`src/main.py` 371-406): on any call, parse or
validation error, returns `ExtractedLead(raw_transcription=transcription)`. -/
def extract_lead_fields (t : String) (o : LLMOutcome) : ExtractedLead :=
  match o with
  | .callError _ => { raw_transcription := t }
  | .parseError _ => { raw_transcription := t }
  | .parsed v =>
    match validateLeadPayload v with
    | .ok p =>
      { customer_name := p.customer_name, contact_phone := p.contact_phone,
        contact_email := p.contact_email, property_address := p.property_address,
        lead_source := p.lead_source, job_segment := p.job_segment,
        priority := p.priority, initial_notes := p.initial_notes,
        raw_transcription := t }
    | .error _ => { raw_transcription := t }

/-- `ExtractedCallNote` (`src/main.py` 126-136). -/
structure ExtractedCallNote where
  lead_identifier : Option String := none
  activity_type : Option String := none
  summary : Option String := none
  notes : Option String := none
  outcome : Option String := none
  next_follow_up_date : Option String := none
  next_steps : Option String := none
  duration_minutes : Option Int := none
  raw_transcription : String
deriving Repr, DecidableEq

/-- Extracted attribute block of `ExtractedCallNote`. -/
structure CallNotePayload where
  lead_identifier : Option String
  activity_type : Option String
  summary : Option String
  notes : Option String
  outcome : Option String
  next_follow_up_date : Option String
  next_steps : Option String
  duration_minutes : Option Int

/-- Field gathering and validation for `ExtractedCallNote(...)`
(`src/main.py` 429-439); `duration_minutes` is `Optional[int]`. -/
def validateCallNotePayload (v : JVal) : Except String CallNotePayload := do
  let a ← pyGetD v "lead_identifier" .null
  let b ← pyGetD v "activity_type" .null
  let c ← pyGetD v "summary" .null
  let d ← pyGetD v "notes" .null
  let e ← pyGetD v "outcome" .null
  let f ← pyGetD v "next_follow_up_date" .null
  let g ← pyGetD v "next_steps" .null
  let h ← pyGetD v "duration_minutes" .null
  let lead_identifier ← vOptStr a
  let activity_type ← vOptStr b
  let summary ← vOptStr c
  let notes ← vOptStr d
  let outcome ← vOptStr e
  let next_follow_up_date ← vOptStr f
  let next_steps ← vOptStr g
  let duration_minutes ← vOptInt h
  return { lead_identifier := lead_identifier, activity_type := activity_type,
           summary := summary, notes := notes, outcome := outcome,
           next_follow_up_date := next_follow_up_date, next_steps := next_steps,
           duration_minutes := duration_minutes }

/-- `extract_call_note_fields` (`src/main.py` 409-442). -/
def extract_call_note_fields (t : String) (o : LLMOutcome) : ExtractedCallNote :=
  match o with
  | .callError _ => { raw_transcription := t }
  | .parseError _ => { raw_transcription := t }
  | .parsed v =>
    match validateCallNotePayload v with
    | .ok p =>
      { lead_identifier := p.lead_identifier, activity_type := p.activity_type,
        summary := p.summary, notes := p.notes, outcome := p.outcome,
        next_follow_up_date := p.next_follow_up_date, next_steps := p.next_steps,
        duration_minutes := p.duration_minutes, raw_transcription := t }
    | .error _ => { raw_transcription := t }

/-- `ExtractedStatusUpdate` (`src/main.py` 139-144). -/
structure ExtractedStatusUpdate where
  lead_identifier : Option String := none
  new_status : Option String := none
  reason : Option String := none
  raw_transcription : String
deriving Repr, DecidableEq

/-- Extracted attribute block of `ExtractedStatusUpdate`. -/
structure StatusPayload where
  lead_identifier : Option String
  new_status : Option String
  reason : Option String

/-- Field gathering and validation for `ExtractedStatusUpdate(...)`
(`src/main.py` 465-470). -/
def validateStatusPayload (v : JVal) : Except String StatusPayload := do
  let a ← pyGetD v "lead_identifier" .null
  let b ← pyGetD v "new_status" .null
  let c ← pyGetD v "reason" .null
  let lead_identifier ← vOptStr a
  let new_status ← vOptStr b
  let reason ← vOptStr c
  return { lead_identifier := lead_identifier, new_status := new_status,
           reason := reason }

/-- `extract_status_update_fields` (`src/main.py` 445-473). -/
def extract_status_update_fields (t : String) (o : LLMOutcome) : ExtractedStatusUpdate :=
  match o with
  | .callError _ => { raw_transcription := t }
  | .parseError _ => { raw_transcription := t }
  | .parsed v =>
    match validateStatusPayload v with
    | .ok p =>
      { lead_identifier := p.lead_identifier, new_status := p.new_status,
        reason := p.reason, raw_transcription := t }
    | .error _ => { raw_transcription := t }

/-- `ExtractedTask` (`src/main.py` 147-155). -/
structure ExtractedTask where
  lead_identifier : Option String := none
  task_type : Option String := none
  title : Option String := none
  notes : Option String := none
  due_date : Option String := none
  priority : Option String := none
  raw_transcription : String
deriving Repr, DecidableEq

/-- Extracted attribute block of `ExtractedTask`. -/
structure TaskPayload where
  lead_identifier : Option String
  task_type : Option String
  title : Option String
  notes : Option String
  due_date : Option String
  priority : Option String

/-- Field gathering and validation for `ExtractedTask(...)`
(`src/main.py` 496-504). -/
def validateTaskPayload (v : JVal) : Except String TaskPayload := do
  let a ← pyGetD v "lead_identifier" .null
  let b ← pyGetD v "task_type" .null
  let c ← pyGetD v "title" .null
  let d ← pyGetD v "notes" .null
  let e ← pyGetD v "due_date" .null
  let f ← pyGetD v "priority" .null
  let lead_identifier ← vOptStr a
  let task_type ← vOptStr b
  let title ← vOptStr c
  let notes ← vOptStr d
  let due_date ← vOptStr e
  let priority ← vOptStr f
  return { lead_identifier := lead_identifier, task_type := task_type,
           title := title, notes := notes, due_date := due_date,
           priority := priority }

/-- `extract_task_fields` (`src/main.py` 476-507). -/
def extract_task_fields (t : String) (o : LLMOutcome) : ExtractedTask :=
  match o with
  | .callError _ => { raw_transcription := t }
  | .parseError _ => { raw_transcription := t }
  | .parsed v =>
    match validateTaskPayload v with
    | .ok p =>
      { lead_identifier := p.lead_identifier, task_type := p.task_type,
        title := p.title, notes := p.notes, due_date := p.due_date,
        priority := p.priority, raw_transcription := t }
    | .error _ => { raw_transcription := t }

/-- Airtable environment configuration (`src/main.py` 77-81): each entry is
`os.getenv` output, `none` when unset (empty strings are falsey too). -/
structure AirtableCfg where
  apiKey : Option String
  crmBase : Option String
  leadsTable : Option String
  activitiesTable : Option String
  tasksTable : Option String
deriving Repr, DecidableEq

/-- `all([AIRTABLE_API_KEY, CRM_BASE_ID, LEADS_TABLE_ID])`. -/
def leadsCfgOK (c : AirtableCfg) : Bool :=
  truthyOpt c.apiKey && truthyOpt c.crmBase && truthyOpt c.leadsTable

/-- `all([AIRTABLE_API_KEY, CRM_BASE_ID, ACTIVITIES_TABLE_ID])`. -/
def activitiesCfgOK (c : AirtableCfg) : Bool :=
  truthyOpt c.apiKey && truthyOpt c.crmBase && truthyOpt c.activitiesTable

/-- `all([AIRTABLE_API_KEY, CRM_BASE_ID, TASKS_TABLE_ID])`. -/
def tasksCfgOK (c : AirtableCfg) : Bool :=
  truthyOpt c.apiKey && truthyOpt c.crmBase && truthyOpt c.tasksTable

/-- `f"https://api.airtable.com/v0/\x7bCRM_BASE_ID\x7d/\x7btable\x7d"`. -/
def apiUrl (c : AirtableCfg) (table : Option String) : String :=
  "https://api.airtable.com/v0/" ++ showOpt c.crmBase ++ "/" ++ showOpt table

/-- `f"https://airtable.com/\x7bCRM_BASE_ID\x7d/\x7btable\x7d/\x7brid\x7d"`. -/
def browseUrl (c : AirtableCfg) (table : Option String) (rid : String) : String :=
  "https://airtable.com/" ++ showOpt c.crmBase ++ "/" ++ showOpt table ++ "/" ++ rid

/-- Values placed in an outgoing Airtable `fields` payload: strings, the
integer `Duration`, and linked-record id arrays. -/
inductive FieldVal where
  | str (s : String)
  | int (n : Int)
  | listIds (ids : List String)
deriving Repr, DecidableEq

/-- Python truthiness of a payload value (`fields.get("Notes")` test). -/
def fvTruthy : Option FieldVal → Bool
  | none => false
  | some (.str s) => !(s == "")
  | some (.int n) => !(n == 0)
  | some (.listIds l) => !l.isEmpty

/-- Ordered-dict lookup, as in Python `fields.get(k)`. -/
def dictGet? : List (String × FieldVal) → String → Option FieldVal
  | [], _ => none
  | kv :: rest, k => if kv.1 == k then some kv.2 else dictGet? rest k

/-- Ordered-dict assignment `fields[k] = v`: overwrites in place, appends
when the key is new — Python dicts preserve insertion order. -/
def dictSet : List (String × FieldVal) → String → FieldVal → List (String × FieldVal)
  | [], k, v => [(k, v)]
  | kv :: rest, k, v => if kv.1 == k then (k, v) :: rest else kv :: dictSet rest k v

/-- One HTTP request issued against the system of record. -/
inductive StoreReq where
  | listGet (url : String) (formula : String) (maxRecords : Nat)
  | recGet (url : String)
  | post (url : String) (fields : List (String × FieldVal))
  | patch (url : String) (fields : List (String × FieldVal))
deriving Repr, DecidableEq

/-- Outcome of one httpx request: a transport exception, or a response with
a status code and a `response.json()` parse outcome. -/
inductive HttpOutcome where
  | exn (msg : String)
  | resp (status : Nat) (body : Except String JVal)

/-- `CreateLeadResponse` (`src/main.py` 116-123). -/
structure CreateLeadResponse where
  status : String
  record_id : Option String := none
  lead_name : Option String := none
  fields_populated : List String := []
  message : String
  airtable_url : Option String := none
deriving Repr, DecidableEq

/-- `CreateRecordResponse` (`src/main.py` 158-166). -/
structure CreateRecordResponse where
  status : String
  intent : String
  record_id : Option String := none
  record_name : Option String := none
  fields_populated : List String := []
  message : String
  airtable_url : Option String := none
deriving Repr, DecidableEq

/-- The closed `Lead Source` vocabulary (`src/main.py` 593). -/
def validSources : List String :=
  ["Referral", "Website", "Walk-in", "Repeat Customer", "Trade Show", "Social Media", "Other"]

/-- The closed `Status` vocabulary (`src/main.py` 782). -/
def validStatuses : List String :=
  ["New", "Contacted", "Qualified", "Converted to Opportunity", "Lost"]

/-- One conditional `if x: fields[k] = v; fields_populated.append(m)` step,
the pattern repeated throughout the executors' field building. -/
def addField (st : List (String × FieldVal) × List String) (cond : Bool)
    (k : String) (v : FieldVal) (m : String) :
    List (String × FieldVal) × List String :=
  if cond then (dictSet st.1 k v, st.2 ++ [m]) else st

/-- The `Lead Source` step of `create_airtable_lead` (`src/main.py` 591-599):
a truthy extracted source is sent as-is when in the closed vocabulary and as
`"Other"` (with a synthetic marker) otherwise. -/
def addLeadSource (st : List (String × FieldVal) × List String)
    (src : Option String) : List (String × FieldVal) × List String :=
  if truthyOpt src then
    (if src.getD "" ∈ validSources then
      (dictSet st.1 "Lead Source" (.str (src.getD "")), st.2 ++ ["Lead Source"])
     else
      (dictSet st.1 "Lead Source" (.str "Other"), st.2 ++ ["Lead Source (mapped to Other)"]))
  else st

/-- Field-set construction of `create_airtable_lead` (`src/main.py` 566-619),
producing the `fields` dict and the `fields_populated` list.  The local
`lead_name_parts` accumulator of the source is dead code (never read after
being built) and is not modelled. -/
def buildLeadFields (lead : ExtractedLead) (now : String) :
    List (String × FieldVal) × List String :=
  let st1 := addField ([], []) (truthyOpt lead.customer_name)
    "Customer Name" (.str (lead.customer_name.getD "")) "Customer Name"
  let st2 := addField st1 (truthyOpt lead.property_address)
    "Property Address" (.str (lead.property_address.getD "")) "Property Address"
  let st3 := addField st2 (truthyOpt lead.contact_phone)
    "Contact Phone" (.str (lead.contact_phone.getD "")) "Contact Phone"
  let st4 := addField st3 (truthyOpt lead.contact_email)
    "Contact Email" (.str (lead.contact_email.getD "")) "Contact Email"
  let st5 := addLeadSource st4 lead.lead_source
  let st6 := addField st5 (truthyOpt lead.job_segment)
    "Job Segment" (.str (lead.job_segment.getD "")) "Job Segment"
  let st7 := addField st6 (truthyOpt lead.priority)
    "Priority" (.str (lead.priority.getD "")) "Priority"
  let st8 := (dictSet st7.1 "Status" (.str "New"), st7.2 ++ ["Status"])
  let tail := "\n\n---\nVoice transcription (" ++ now ++ "):\n" ++ lead.raw_transcription
  let noteVal := if truthyOpt lead.initial_notes
      then lead.initial_notes.getD "" ++ "\n" ++ tail else tail
  (dictSet st8.1 "Initial Notes" (.str noteVal), st8.2 ++ ["Initial Notes"])

/-- Success-branch response construction of `create_airtable_lead`
(`src/main.py` 633-645), inside the `try` block: `data.get("id")` is
validated as `Optional[str]`, and `lead_name` reads the local `fields`
dict (where `Lead Name` is never set) with default `"Unknown"`. -/
def leadCreatedResponse (cfg : AirtableCfg) (lead : ExtractedLead)
    (fields : List (String × FieldVal)) (pop : List String) (data : JVal) :
    Except String CreateLeadResponse := do
  let idv ← pyGetD data "id" .null
  let rid ← vOptStr idv
  let ln ← match dictGet? fields "Lead Name" with
    | none => Except.ok "Unknown"
    | some (.str s) => Except.ok s
    | some _ => Except.error "validation error: str or None expected"
  return { status := "created", record_id := rid, lead_name := some ln,
           fields_populated := pop,
           message := "Successfully created lead for " ++ pyOrStr lead.customer_name "unknown customer",
           airtable_url := some (browseUrl cfg cfg.leadsTable (showOpt rid)) }

/-- `create_airtable_lead` (`src/main.py` 555-662): configuration check,
field building, one POST; non-200 and exception branches return `error`
carrying the computed `fields_populated`. -/
def create_airtable_lead (cfg : AirtableCfg) (lead : ExtractedLead) (now : String)
    (postO : HttpOutcome) : CreateLeadResponse × List StoreReq :=
  if !leadsCfgOK cfg then
    ({ status := "error",
       message := "Airtable configuration missing. Check environment variables.",
       fields_populated := [] }, [])
  else
    let fp := buildLeadFields lead now
    let req : StoreReq := .post (apiUrl cfg cfg.leadsTable) fp.1
    let resp : CreateLeadResponse :=
      match postO with
      | .exn e =>
        { status := "error", message := strOr e "Unknown Airtable error",
          fields_populated := fp.2 }
      | .resp 200 (.error e) =>
        { status := "error", message := strOr e "Unknown Airtable error",
          fields_populated := fp.2 }
      | .resp 200 (.ok data) =>
        match leadCreatedResponse cfg lead fp.1 fp.2 data with
        | .ok r => r
        | .error e =>
          { status := "error", message := strOr e "Unknown Airtable error",
            fields_populated := fp.2 }
      | .resp code _ =>
        { status := "error", message := "Airtable API error: " ++ toString code,
          fields_populated := fp.2 }
    (resp, [req])

/-- The dict `find_lead_by_identifier` returns for a match
(`src/main.py` 538-542). -/
structure FoundLead where
  id : JVal
  name : JVal
  fields : JVal

/-- The `filterByFormula` value of the lead search (`src/main.py` 518). -/
def searchFormula (identifier : String) : String :=
  "OR(SEARCH(LOWER(\"" ++ identifier ++ "\"), LOWER(\x7bCustomer Name\x7d)), SEARCH(\"" ++
    identifier ++ "\", \x7bContact Phone\x7d))"

/-- Record selection from the 200-response body (`src/main.py` 532-545):
`records = data.get("records", [])`, truthiness test, first element, then
the match dict is built; dynamic type errors become exceptions. -/
def extractFirstLead (data : JVal) : Except String (Option FoundLead) := do
  let records ← pyGetD data "records" (.arr [])
  if pyTruthy records then
    let lead ← pyIndex0 records
    let idv ← pyGetD lead "id" .null
    let fv ← pyGetD lead "fields" (.obj [])
    let nv ← pyGetD fv "Customer Name" (.str "Unknown")
    return some { id := idv, name := nv, fields := fv }
  else
    return none

/-- `find_lead_by_identifier` (`src/main.py` 510-552): missing configuration,
transport errors, parse errors, non-200 responses and zero candidates all
yield `none`; otherwise the first of at most 5 requested candidates. -/
def find_lead_by_identifier (cfg : AirtableCfg) (identifier : String)
    (http : HttpOutcome) : Option FoundLead × List StoreReq :=
  if !leadsCfgOK cfg then (none, [])
  else
    let req : StoreReq := .listGet (apiUrl cfg cfg.leadsTable) (searchFormula identifier) 5
    let res : Option FoundLead :=
      match http with
      | .exn _ => none
      | .resp 200 (.error _) => none
      | .resp 200 (.ok data) =>
        match extractFirstLead data with
        | .ok r => r
        | .error _ => none
      | .resp _ _ => none
    (res, [req])

/-- Notes-append step shared by the activity and task executors
(`src/main.py` 716-720 and 907-911): if a truthy `Notes` value is present,
the timestamped transcription is concatenated onto it; otherwise `Notes` is
set to the bare timestamped transcription and recorded as populated. -/
def appendTranscriptionNotes (st : List (String × FieldVal) × List String)
    (now raw : String) : List (String × FieldVal) × List String :=
  match dictGet? st.1 "Notes" with
  | some (.str s) =>
    if s == "" then
      (dictSet st.1 "Notes" (.str ("Voice transcription (" ++ now ++ "):\n" ++ raw)),
       st.2 ++ ["Notes"])
    else
      (dictSet st.1 "Notes"
        (.str (s ++ "\n\n---\nVoice transcription (" ++ now ++ "):\n" ++ raw)), st.2)
  | _ =>
    (dictSet st.1 "Notes" (.str ("Voice transcription (" ++ now ++ "):\n" ++ raw)),
     st.2 ++ ["Notes"])

/-- Field-set construction of `create_airtable_activity`
(`src/main.py` 676-720). -/
def buildActivityFields (note : ExtractedCallNote) (lead_id : Option String)
    (now : String) : List (String × FieldVal) × List String :=
  let st0 : List (String × FieldVal) × List String := ([], [])
  let st1 := if truthyOpt note.summary then
      (dictSet st0.1 "Activity Summary" (.str (note.summary.getD "")),
       st0.2 ++ ["Activity Summary"]) else st0
  let st2 := if truthyOpt note.activity_type then
      (dictSet st1.1 "Activity Type" (.str (note.activity_type.getD "")),
       st1.2 ++ ["Activity Type"])
    else
      (dictSet st1.1 "Activity Type" (.str "Call"), st1.2 ++ ["Activity Type (default)"])
  let st3 := if truthyOpt note.notes then
      (dictSet st2.1 "Notes" (.str (note.notes.getD "")), st2.2 ++ ["Notes"]) else st2
  let st4 := if truthyOpt note.outcome then
      (dictSet st3.1 "Outcome" (.str (note.outcome.getD "")), st3.2 ++ ["Outcome"]) else st3
  let st5 := if truthyOpt note.next_follow_up_date then
      (dictSet st4.1 "Next Follow-Up Date" (.str (note.next_follow_up_date.getD "")),
       st4.2 ++ ["Next Follow-Up Date"]) else st4
  let st6 := if truthyOpt note.next_steps then
      (dictSet st5.1 "Next Steps" (.str (note.next_steps.getD "")),
       st5.2 ++ ["Next Steps"]) else st5
  let st7 := match note.duration_minutes with
    | some n => if n == 0 then st6 else
        (dictSet st6.1 "Duration" (.int n), st6.2 ++ ["Duration"])
    | none => st6
  let st8 := if truthyOpt lead_id then
      (dictSet st7.1 "Related Lead" (.listIds [lead_id.getD ""]),
       st7.2 ++ ["Related Lead"]) else st7
  appendTranscriptionNotes st8 now note.raw_transcription

/-- Success-branch response construction for a created Activity record
(`src/main.py` 733-746). -/
def activityCreatedResponse (cfg : AirtableCfg) (note : ExtractedCallNote)
    (pop : List String) (data : JVal) : Except String CreateRecordResponse := do
  let idv ← pyGetD data "id" .null
  let rid ← vOptStr idv
  return { status := "created", intent := "call_note", record_id := rid,
           record_name := some (pyOrStr note.summary "Activity logged"),
           fields_populated := pop,
           message := "Successfully logged activity for " ++ pyOrStr note.lead_identifier "unknown lead",
           airtable_url := some (browseUrl cfg cfg.activitiesTable (showOpt rid)) }

/-- `create_airtable_activity` (`src/main.py` 665-763). -/
def create_airtable_activity (cfg : AirtableCfg) (note : ExtractedCallNote)
    (lead_id : Option String) (now : String) (postO : HttpOutcome) :
    CreateRecordResponse × List StoreReq :=
  if !activitiesCfgOK cfg then
    ({ status := "error", intent := "call_note",
       message := "Airtable configuration missing. Check environment variables.",
       fields_populated := [] }, [])
  else
    let fp := buildActivityFields note lead_id now
    let req : StoreReq := .post (apiUrl cfg cfg.activitiesTable) fp.1
    let resp : CreateRecordResponse :=
      match postO with
      | .exn e =>
        { status := "error", intent := "call_note", message := e, fields_populated := fp.2 }
      | .resp 200 (.error e) =>
        { status := "error", intent := "call_note", message := e, fields_populated := fp.2 }
      | .resp 200 (.ok data) =>
        match activityCreatedResponse cfg note fp.2 data with
        | .ok r => r
        | .error e =>
          { status := "error", intent := "call_note", message := e, fields_populated := fp.2 }
      | .resp code _ =>
        { status := "error", intent := "call_note",
          message := "Airtable API error: " ++ toString code, fields_populated := fp.2 }
    (resp, [req])

/-- Field-set construction of `create_airtable_task` (`src/main.py` 863-911);
`tomorrow` is the precomputed `now + 1 day` date string. -/
def buildTaskFields (task : ExtractedTask) (lead_id : Option String)
    (now tomorrow : String) : List (String × FieldVal) × List String :=
  let st0 : List (String × FieldVal) × List String := ([], [])
  let st1 := if truthyOpt task.title then
      (dictSet st0.1 "Task Name" (.str (task.title.getD "")), st0.2 ++ ["Task Name"]) else st0
  let st2 := if truthyOpt task.task_type then
      (dictSet st1.1 "Task Type" (.str (task.task_type.getD "")), st1.2 ++ ["Task Type"])
    else
      (dictSet st1.1 "Task Type" (.str "Lead Follow-up"), st1.2 ++ ["Task Type (default)"])
  let st3 := if truthyOpt task.notes then
      (dictSet st2.1 "Notes" (.str (task.notes.getD "")), st2.2 ++ ["Notes"]) else st2
  let st4 := if truthyOpt task.due_date then
      (dictSet st3.1 "Due Date" (.str (task.due_date.getD "")), st3.2 ++ ["Due Date"])
    else
      (dictSet st3.1 "Due Date" (.str tomorrow), st3.2 ++ ["Due Date (default: tomorrow)"])
  let st5 := if truthyOpt task.priority then
      (dictSet st4.1 "Priority" (.str (task.priority.getD "")), st4.2 ++ ["Priority"])
    else
      (dictSet st4.1 "Priority" (.str "Medium"), st4.2 ++ ["Priority (default)"])
  let st6 := (dictSet st5.1 "Status" (.str "Not Started"), st5.2 ++ ["Status"])
  let st7 := if truthyOpt lead_id then
      (dictSet st6.1 "Leads" (.listIds [lead_id.getD ""]), st6.2 ++ ["Leads"]) else st6
  appendTranscriptionNotes st7 now task.raw_transcription

/-- Success-branch response construction for a created Task record
(`src/main.py` 924-937). -/
def taskCreatedResponse (cfg : AirtableCfg) (task : ExtractedTask)
    (pop : List String) (data : JVal) : Except String CreateRecordResponse := do
  let idv ← pyGetD data "id" .null
  let rid ← vOptStr idv
  return { status := "created", intent := "task", record_id := rid,
           record_name := some (pyOrStr task.title "Task created"),
           fields_populated := pop,
           message := "Successfully created task: " ++ pyOrStr task.title "Follow-up task",
           airtable_url := some (browseUrl cfg cfg.tasksTable (showOpt rid)) }

/-- `create_airtable_task` (`src/main.py` 852-954). -/
def create_airtable_task (cfg : AirtableCfg) (task : ExtractedTask)
    (lead_id : Option String) (now tomorrow : String) (postO : HttpOutcome) :
    CreateRecordResponse × List StoreReq :=
  if !tasksCfgOK cfg then
    ({ status := "error", intent := "task",
       message := "Airtable configuration missing. Check environment variables.",
       fields_populated := [] }, [])
  else
    let fp := buildTaskFields task lead_id now tomorrow
    let req : StoreReq := .post (apiUrl cfg cfg.tasksTable) fp.1
    let resp : CreateRecordResponse :=
      match postO with
      | .exn e =>
        { status := "error", intent := "task", message := e, fields_populated := fp.2 }
      | .resp 200 (.error e) =>
        { status := "error", intent := "task", message := e, fields_populated := fp.2 }
      | .resp 200 (.ok data) =>
        match taskCreatedResponse cfg task fp.2 data with
        | .ok r => r
        | .error e =>
          { status := "error", intent := "task", message := e, fields_populated := fp.2 }
      | .resp code _ =>
        { status := "error", intent := "task",
          message := "Airtable API error: " ++ toString code, fields_populated := fp.2 }
    (resp, [req])

/-- PATCH call and response handling of `update_airtable_lead_status`
(`src/main.py` 817-849), inside the `try` block; a 200 response yields
`status="updated"` with `record_id = lead_id`. -/
def statusPatch (cfg : AirtableCfg) (upd : ExtractedStatusUpdate)
    (lead_id lead_name : String) (pop : List String) (patchO : HttpOutcome) :
    CreateRecordResponse :=
  match patchO with
  | .exn e =>
    { status := "error", intent := "status_update", message := e, fields_populated := pop }
  | .resp 200 _ =>
    { status := "updated", intent := "status_update", record_id := some lead_id,
      record_name := some lead_name, fields_populated := pop,
      message := "Updated " ++ lead_name ++ " status to \x27" ++ showOpt upd.new_status ++ "\x27",
      airtable_url := some (browseUrl cfg cfg.leadsTable lead_id) }
  | .resp code _ =>
    { status := "error", intent := "status_update",
      message := "Airtable API error: " ++ toString code, fields_populated := pop }

/-- `get_response.json().get("fields", \x7b\x7d).get("Initial Notes", "")`
followed by string concatenation (`src/main.py` 806-807); a non-string
notes value raises `TypeError` (uncaught in the source). -/
def existingInitialNotes (b : JVal) : Except String String := do
  let fv ← pyGetD b "fields" (.obj [])
  let nv ← pyGetD fv "Initial Notes" (.str "")
  match nv with
  | .str s => Except.ok s
  | _ => Except.error "TypeError: can only concatenate str"

/-- Reason handling plus PATCH of `update_airtable_lead_status`
(`src/main.py` 794-849), entered after status validation with the fields
built so far.  The notes read (GET) is outside any `try`, so its transport
and parse failures propagate (`Except.error`); a non-200 GET silently skips
the notes append.  The PATCH request is issued exactly once on every
non-propagating path. -/
def statusUpdatePhase2 (cfg : AirtableCfg) (now : String)
    (upd : ExtractedStatusUpdate) (lead_id lead_name : String)
    (fields0 : List (String × FieldVal)) (pop0 : List String)
    (getO patchO : HttpOutcome) :
    Except String CreateRecordResponse × List StoreReq :=
  let recUrl := apiUrl cfg cfg.leadsTable ++ "/" ++ lead_id
  if truthyOpt upd.reason then
    let statusNote := "\n\n---\nStatus changed to \x27" ++ showOpt upd.new_status ++
      "\x27 (" ++ now ++ "):\n" ++ upd.reason.getD ""
    match getO with
    | .exn e => (.error e, [.recGet recUrl])
    | .resp 200 (.error e) => (.error e, [.recGet recUrl])
    | .resp 200 (.ok b) =>
      match existingInitialNotes b with
      | .error e => (.error e, [.recGet recUrl])
      | .ok en =>
        let fields := dictSet fields0 "Initial Notes" (.str (en ++ statusNote))
        (.ok (statusPatch cfg upd lead_id lead_name (pop0 ++ ["Initial Notes"]) patchO),
         [.recGet recUrl, .patch recUrl fields])
    | .resp _ _ =>
      (.ok (statusPatch cfg upd lead_id lead_name pop0 patchO),
       [.recGet recUrl, .patch recUrl fields0])
  else
    (.ok (statusPatch cfg upd lead_id lead_name pop0 patchO), [.patch recUrl fields0])

/-- `update_airtable_lead_status` (`src/main.py` 766-849): configuration
check, status validation against the closed vocabulary (entered only when
`new_status` is truthy, i.e. non-null and non-empty), then the notes
read-modify-write and the single PATCH. -/
def update_airtable_lead_status (cfg : AirtableCfg) (now : String)
    (upd : ExtractedStatusUpdate) (lead_id lead_name : String)
    (getO patchO : HttpOutcome) :
    Except String CreateRecordResponse × List StoreReq :=
  if !leadsCfgOK cfg then
    (.ok { status := "error", intent := "status_update",
           message := "Airtable configuration missing.", fields_populated := [] }, [])
  else
    if truthyOpt upd.new_status then
      if upd.new_status.getD "" ∈ validStatuses then
        statusUpdatePhase2 cfg now upd lead_id lead_name
          (dictSet [] "Status" (.str (upd.new_status.getD ""))) ["Status"] getO patchO
      else
        (.ok { status := "error", intent := "status_update",
               message := "Invalid status \x27" ++ upd.new_status.getD "" ++
                 "\x27. Valid options: New, Contacted, Qualified, Converted to Opportunity, Lost",
               fields_populated := [] }, [])
    else
      statusUpdatePhase2 cfg now upd lead_id lead_name [] [] getO patchO

/-- `WisprWebhook` payload (`src/main.py` 87-92). -/
structure WisprWebhook where
  transcription : String
  timestamp : Option String := none
  user_id : Option String := none
  audio_duration : Option Rat := none

/-- Component invocations performed while serving one request; used to state
which extractors/executors a route touches. -/
inductive RouterEvent where
  | classifyCall
  | extractLeadCall
  | extractCallNoteCall
  | extractStatusCall
  | extractTaskCall
  | store (r : StoreReq)
deriving Repr, DecidableEq

/-- External-call outcomes supplied to one webhook request: the classifier
completion, the four extractor completions, and the four store calls that
the chosen route may issue. -/
structure RouterOracles where
  classifyO : LLMOutcome
  extractLeadO : LLMOutcome
  extractCallNoteO : LLMOutcome
  extractStatusO : LLMOutcome
  extractTaskO : LLMOutcome
  findO : HttpOutcome
  createO : HttpOutcome
  getRecO : HttpOutcome
  patchO : HttpOutcome

/-- JSON rendering of an `Optional[str]` response value. -/
def jOptStr : Option String → JVal
  | none => .null
  | some s => .str s

/-- JSON rendering of a `list[str]` response value. -/
def jStrList (l : List String) : JVal := .arr (l.map .str)

/-- The `id` entry of a found-lead dict as an `Optional[str]` link target.
Store record ids are strings; non-string ids would only arise from a
malformed store body and are not exercised by any claim. -/
def jIdToOpt : JVal → Option String
  | .str s => some s
  | _ => none

/-- The `name` entry of a found-lead dict rendered as the string argument
of `update_airtable_lead_status`; always a string for well-formed bodies. -/
def jNameStr : JVal → String
  | .str s => s
  | _ => ""

/-- `wispr_webhook` (`src/main.py` 982-1072): classify once, dispatch to
exactly one extractor, resolve the lead where applicable, execute, and
assemble the response dict.  `Except.error` marks an exception propagating
out of the endpoint (only possible via the status-update notes read). -/
def wispr_webhook (cfg : AirtableCfg) (now tomorrow : String)
    (o : RouterOracles) (p : WisprWebhook) :
    Except String (List (String × JVal)) × List RouterEvent :=
  let ir := classify_intent p.transcription o.classifyO
  if ir.intent = "new_lead" then
    let ex := extract_lead_fields p.transcription o.extractLeadO
    let cr := create_airtable_lead cfg ex now o.createO
    (.ok [("status", .str cr.1.status), ("intent", .str "new_lead"),
          ("intent_confidence", .num ir.confidence),
          ("record_id", jOptStr cr.1.record_id),
          ("record_name", jOptStr cr.1.lead_name),
          ("fields_populated", jStrList cr.1.fields_populated),
          ("message", .str cr.1.message),
          ("airtable_url", jOptStr cr.1.airtable_url)],
     [.classifyCall, .extractLeadCall] ++ cr.2.map .store)
  else if ir.intent = "call_note" then
    let ex := extract_call_note_fields p.transcription o.extractCallNoteO
    let fr := if truthyOpt ex.lead_identifier then
        find_lead_by_identifier cfg (ex.lead_identifier.getD "") o.findO
      else (none, [])
    let lead_id := match fr.1 with
      | some fl => jIdToOpt fl.id
      | none => none
    let cr := create_airtable_activity cfg ex lead_id now o.createO
    (.ok [("status", .str cr.1.status), ("intent", .str "call_note"),
          ("intent_confidence", .num ir.confidence),
          ("record_id", jOptStr cr.1.record_id),
          ("record_name", jOptStr cr.1.record_name),
          ("fields_populated", jStrList cr.1.fields_populated),
          ("message", .str cr.1.message),
          ("airtable_url", jOptStr cr.1.airtable_url)],
     [.classifyCall, .extractCallNoteCall] ++ fr.2.map .store ++ cr.2.map .store)
  else if ir.intent = "status_update" then
    let ex := extract_status_update_fields p.transcription o.extractStatusO
    if !truthyOpt ex.lead_identifier then
      (.ok [("status", .str "error"), ("intent", .str "status_update"),
            ("message", .str "Could not identify lead to update")],
       [.classifyCall, .extractStatusCall])
    else
      let fr := find_lead_by_identifier cfg (ex.lead_identifier.getD "") o.findO
      match fr.1 with
      | none =>
        (.ok [("status", .str "error"), ("intent", .str "status_update"),
              ("message", .str ("Lead not found: " ++ showOpt ex.lead_identifier))],
         [.classifyCall, .extractStatusCall] ++ fr.2.map .store)
      | some fl =>
        let ur := update_airtable_lead_status cfg now ex (jNameStr fl.id) (jNameStr fl.name)
          o.getRecO o.patchO
        match ur.1 with
        | .error e =>
          (.error e, [.classifyCall, .extractStatusCall] ++ fr.2.map .store ++ ur.2.map .store)
        | .ok r =>
          (.ok [("status", .str r.status), ("intent", .str "status_update"),
                ("intent_confidence", .num ir.confidence),
                ("record_id", jOptStr r.record_id),
                ("record_name", jOptStr r.record_name),
                ("fields_populated", jStrList r.fields_populated),
                ("message", .str r.message),
                ("airtable_url", jOptStr r.airtable_url)],
           [.classifyCall, .extractStatusCall] ++ fr.2.map .store ++ ur.2.map .store)
  else if ir.intent = "task" then
    let ex := extract_task_fields p.transcription o.extractTaskO
    let fr := if truthyOpt ex.lead_identifier then
        find_lead_by_identifier cfg (ex.lead_identifier.getD "") o.findO
      else (none, [])
    let lead_id := match fr.1 with
      | some fl => jIdToOpt fl.id
      | none => none
    let cr := create_airtable_task cfg ex lead_id now tomorrow o.createO
    (.ok [("status", .str cr.1.status), ("intent", .str "task"),
          ("intent_confidence", .num ir.confidence),
          ("record_id", jOptStr cr.1.record_id),
          ("record_name", jOptStr cr.1.record_name),
          ("fields_populated", jStrList cr.1.fields_populated),
          ("message", .str cr.1.message),
          ("airtable_url", jOptStr cr.1.airtable_url)],
     [.classifyCall, .extractTaskCall] ++ fr.2.map .store ++ cr.2.map .store)
  else
    (.ok [("status", .str "skipped"), ("intent", .str ir.intent),
          ("confidence", .num ir.confidence),
          ("message", .str ("Intent \x27" ++ ir.intent ++ "\x27 not recognized."))],
     [.classifyCall])

/-- `preview_lead` (`src/main.py` 1278-1318), modelled from the transcribed
text onward (audio transcription is an external black box): classify, and
only when the intent equals the literal `"create_lead"` extract fields; no
store request is ever issued. -/
def preview_lead (t : String) (classifyO extractO : LLMOutcome) :
    List (String × JVal) × List RouterEvent :=
  let ir := classify_intent t classifyO
  if ir.intent ≠ "create_lead" then
    ([("success", .bool false), ("step", .str "intent_classification"),
      ("intent", .str ir.intent), ("transcription", .str t),
      ("message", .str "Didn\x27t sound like a new lead. Try saying customer name, phone, and project details.")],
     [.classifyCall])
  else
    let ex := extract_lead_fields t extractO
    ([("success", .bool true), ("transcription", .str t),
      ("extracted_fields", .obj
        [("customer_name", jOptStr ex.customer_name),
         ("contact_phone", jOptStr ex.contact_phone),
         ("contact_email", jOptStr ex.contact_email),
         ("property_address", jOptStr ex.property_address),
         ("lead_source", jOptStr ex.lead_source),
         ("job_segment", jOptStr ex.job_segment),
         ("priority", jOptStr ex.priority),
         ("initial_notes", jOptStr ex.initial_notes)]),
      ("message", .str "Ready to create lead. Review and confirm.")],
     [.classifyCall, .extractLeadCall])

/-! Helper lemmas about ordered-dict operations and the lead field set. -/

theorem dictGet?_dictSet_self (d : List (String × FieldVal)) (k : String) (v : FieldVal) :
    dictGet? (dictSet d k v) k = some v := by
  induction d with
  | nil => simp [dictSet, dictGet?]
  | cons kv rest ih =>
    by_cases h : kv.1 == k <;> simp [dictSet, dictGet?, h, ih]

theorem dictGet?_dictSet_ne (d : List (String × FieldVal)) (k k' : String) (v : FieldVal)
    (h : k' ≠ k) : dictGet? (dictSet d k v) k' = dictGet? d k' := by
  have hkk : (k == k') = false := beq_eq_false_iff_ne.mpr (Ne.symm h)
  induction d with
  | nil => simp [dictSet, dictGet?, hkk]
  | cons kv rest ih =>
    by_cases hk : kv.1 == k
    · simp_all [dictSet, dictGet?]
    · by_cases hk2 : kv.1 == k' <;> simp_all [dictSet, dictGet?]

theorem dictGet?_addField_ne (st : List (String × FieldVal) × List String)
    (c : Bool) (k : String) (v : FieldVal) (m k' : String) (h : k' ≠ k) :
    dictGet? (addField st c k v m).1 k' = dictGet? st.1 k' := by
  unfold addField
  split <;> simp [dictGet?_dictSet_ne _ _ _ _ h]

theorem dictGet?_addLeadSource_ne (st : List (String × FieldVal) × List String)
    (src : Option String) (k' : String) (h : k' ≠ "Lead Source") :
    dictGet? (addLeadSource st src).1 k' = dictGet? st.1 k' := by
  unfold addLeadSource
  split
  · split <;> simp [dictGet?_dictSet_ne _ _ _ _ h]
  · rfl

theorem mem_addField_pop (st : List (String × FieldVal) × List String)
    (c : Bool) (k : String) (v : FieldVal) (m x : String) (h : x ∈ st.2) :
    x ∈ (addField st c k v m).2 := by
  unfold addField
  split <;> simp [h]

theorem buildLeadFields_status (lead : ExtractedLead) (now : String) :
    dictGet? (buildLeadFields lead now).1 "Status" = some (.str "New") := by
  simp only [buildLeadFields]
  rw [dictGet?_dictSet_ne _ _ _ _ (by decide), dictGet?_dictSet_self]

theorem buildLeadFields_no_lead_name (lead : ExtractedLead) (now : String) :
    dictGet? (buildLeadFields lead now).1 "Lead Name" = none := by
  simp only [buildLeadFields]
  rw [dictGet?_dictSet_ne _ _ _ _ (by decide), dictGet?_dictSet_ne _ _ _ _ (by decide),
    dictGet?_addField_ne _ _ _ _ _ _ (by decide), dictGet?_addField_ne _ _ _ _ _ _ (by decide),
    dictGet?_addLeadSource_ne _ _ _ (by decide),
    dictGet?_addField_ne _ _ _ _ _ _ (by decide), dictGet?_addField_ne _ _ _ _ _ _ (by decide),
    dictGet?_addField_ne _ _ _ _ _ _ (by decide), dictGet?_addField_ne _ _ _ _ _ _ (by decide)]
  rfl

theorem buildLeadFields_source_other (lead : ExtractedLead) (now s : String)
    (hsrc : lead.lead_source = some s) (hne : s ≠ "") (hnot : s ∉ validSources) :
    dictGet? (buildLeadFields lead now).1 "Lead Source" = some (.str "Other") ∧
    "Lead Source (mapped to Other)" ∈ (buildLeadFields lead now).2 := by
  constructor
  · simp only [buildLeadFields]
    rw [dictGet?_dictSet_ne _ _ _ _ (by decide), dictGet?_dictSet_ne _ _ _ _ (by decide),
      dictGet?_addField_ne _ _ _ _ _ _ (by decide), dictGet?_addField_ne _ _ _ _ _ _ (by decide)]
    unfold addLeadSource
    rw [hsrc]
    simp [truthyOpt, hne, hnot, dictGet?_dictSet_self]
  · simp only [buildLeadFields]
    refine List.mem_append_left _ (List.mem_append_left _ ?_)
    refine mem_addField_pop _ _ _ _ _ _ (mem_addField_pop _ _ _ _ _ _ ?_)
    unfold addLeadSource
    rw [hsrc]
    simp [truthyOpt, hne, hnot]

theorem buildLeadFields_notes (lead : ExtractedLead) (now : String) :
    dictGet? (buildLeadFields lead now).1 "Initial Notes" =
      some (.str (if truthyOpt lead.initial_notes
        then lead.initial_notes.getD "" ++ "\n" ++
          ("\n\n---\nVoice transcription (" ++ now ++ "):\n" ++ lead.raw_transcription)
        else "\n\n---\nVoice transcription (" ++ now ++ "):\n" ++ lead.raw_transcription)) := by
  simp only [buildLeadFields]
  rw [dictGet?_dictSet_self]

/-! Claim C1 — intent classification. -/

/-- C1, counterexample: `classify_intent` does not constrain the parsed
reply, so a completion answering `intent="banana", confidence=2` yields a
decision whose kind is outside the five fixed values (`new_lead`,
`call_note`, `status_update`, `task`, `unknown`) and whose confidence lies
outside `[0,1]` — the claimed invariant fails on the code. -/
theorem classify_unconstrained_counterexample :
    (classify_intent "hello"
        (.parsed (.obj [("intent", JVal.str "banana"), ("confidence", JVal.num 2)]))).intent ∉
      (["new_lead", "call_note", "status_update", "task", "unknown"] : List String) ∧
    ¬ (classify_intent "hello"
        (.parsed (.obj [("intent", JVal.str "banana"), ("confidence", JVal.num 2)]))).confidence ≤ 1 := by
  decide

/-- C1, amended: `classify_intent` never propagates a fault — call failures,
parse failures and validation failures all degrade to
`intent="unknown", confidence=0.0` with the error text as rationale — and
the parsed intent string and confidence number are passed through as-is
(so the five-value and `[0,1]` bounds hold exactly when the model's reply
complies), with a missing `confidence` defaulting to `0.5` and a missing
`intent` defaulting to `"unknown"`. -/
theorem classify_degradation_and_defaults :
    (∀ t e, classify_intent t (.callError e) =
      { intent := "unknown", confidence := 0, message := some e }) ∧
    (∀ t e, classify_intent t (.parseError e) =
      { intent := "unknown", confidence := 0, message := some e }) ∧
    (∀ t v e, validateIntentPayload v = .error e →
      classify_intent t (.parsed v) =
        { intent := "unknown", confidence := 0, message := some e }) ∧
    (∀ t i, classify_intent t (.parsed (.obj [("intent", JVal.str i)])) =
      { intent := i, confidence := 1/2 }) ∧
    (∀ t c, classify_intent t (.parsed (.obj [("confidence", JVal.num c)])) =
      { intent := "unknown", confidence := c }) := by
  refine ⟨fun t e => rfl, fun t e => rfl, fun t v e h => ?_, fun t i => rfl, fun t c => rfl⟩
  simp [classify_intent, h]

/-- C1, witness for `classify_degradation_and_defaults`: concrete runs of
the error and call-failure branches. -/
theorem classify_degradation_and_defaults_witness :
    classify_intent "hi" (.parsed (.arr [])) =
      { intent := "unknown", confidence := 0,
        message := some "AttributeError: object has no attribute get" } ∧
    classify_intent "hi" (.callError "boom") =
      { intent := "unknown", confidence := 0, message := some "boom" } :=
  ⟨classify_degradation_and_defaults.2.2.1 "hi" (.arr []) _ rfl,
   classify_degradation_and_defaults.1 "hi" "boom"⟩

/-! Claim C2 — extractors never fail and always retain the utterance. -/

/-- C2: each of the four extractors always returns a fields-object whose
`raw_transcription` equals the original utterance verbatim, and on any
external-call error, parse error, or validation error (including a
non-numeric string arriving in the typed field `duration_minutes`) the
returned object has every extracted attribute empty/absent. -/
theorem extractors_never_fail_all_empty :
    (∀ t o, (extract_lead_fields t o).raw_transcription = t) ∧
    (∀ t o, (extract_call_note_fields t o).raw_transcription = t) ∧
    (∀ t o, (extract_status_update_fields t o).raw_transcription = t) ∧
    (∀ t o, (extract_task_fields t o).raw_transcription = t) ∧
    (∀ t e, extract_lead_fields t (.callError e) = { raw_transcription := t } ∧
            extract_lead_fields t (.parseError e) = { raw_transcription := t }) ∧
    (∀ t e, extract_call_note_fields t (.callError e) = { raw_transcription := t } ∧
            extract_call_note_fields t (.parseError e) = { raw_transcription := t }) ∧
    (∀ t e, extract_status_update_fields t (.callError e) = { raw_transcription := t } ∧
            extract_status_update_fields t (.parseError e) = { raw_transcription := t }) ∧
    (∀ t e, extract_task_fields t (.callError e) = { raw_transcription := t } ∧
            extract_task_fields t (.parseError e) = { raw_transcription := t }) ∧
    (∀ t v e, validateLeadPayload v = .error e →
      extract_lead_fields t (.parsed v) = { raw_transcription := t }) ∧
    (∀ t v e, validateCallNotePayload v = .error e →
      extract_call_note_fields t (.parsed v) = { raw_transcription := t }) ∧
    (∀ t v e, validateStatusPayload v = .error e →
      extract_status_update_fields t (.parsed v) = { raw_transcription := t }) ∧
    (∀ t v e, validateTaskPayload v = .error e →
      extract_task_fields t (.parsed v) = { raw_transcription := t }) ∧
    (∀ t s, pyStrToInt? s = none →
      extract_call_note_fields t (.parsed (.obj [("duration_minutes", JVal.str s)])) =
        { raw_transcription := t }) := by
  refine ⟨?_, ?_, ?_, ?_, fun t e => ⟨rfl, rfl⟩, fun t e => ⟨rfl, rfl⟩,
    fun t e => ⟨rfl, rfl⟩, fun t e => ⟨rfl, rfl⟩,
    fun t v e h => by simp [extract_lead_fields, h],
    fun t v e h => by simp [extract_call_note_fields, h],
    fun t v e h => by simp [extract_status_update_fields, h],
    fun t v e h => by simp [extract_task_fields, h],
    fun t s hs => ?_⟩
  · intro t o
    rcases o with e | e | v
    · rfl
    · rfl
    · rcases h : validateLeadPayload v with p | e <;> simp [extract_lead_fields, h]
  · intro t o
    rcases o with e | e | v
    · rfl
    · rfl
    · rcases h : validateCallNotePayload v with p | e <;> simp [extract_call_note_fields, h]
  · intro t o
    rcases o with e | e | v
    · rfl
    · rfl
    · rcases h : validateStatusPayload v with p | e <;> simp [extract_status_update_fields, h]
  · intro t o
    rcases o with e | e | v
    · rfl
    · rfl
    · rcases h : validateTaskPayload v with p | e <;> simp [extract_task_fields, h]
  · have hv : validateCallNotePayload (.obj [("duration_minutes", JVal.str s)]) =
        .error "validation error: int expected" := by
      simp [validateCallNotePayload, pyGetD, objGetD, vOptStr, vOptInt, hs,
        Bind.bind, Except.bind, Functor.map, Except.map]
    simp [extract_call_note_fields, hv]

/-- C2, witness for `extractors_never_fail_all_empty`: a non-numeric
`duration_minutes` and a non-dict parsed reply both degrade to the
all-empty object carrying the verbatim utterance. -/
theorem extractors_never_fail_all_empty_witness :
    extract_call_note_fields "hi" (.parsed (.obj [("duration_minutes", JVal.str "thirty")])) =
      { raw_transcription := "hi" } ∧
    extract_lead_fields "hi" (.parsed (.num 3)) = { raw_transcription := "hi" } :=
  ⟨extractors_never_fail_all_empty.2.2.2.2.2.2.2.2.2.2.2.2 "hi" "thirty" (by decide),
   extractors_never_fail_all_empty.2.2.2.2.2.2.2.2.1 "hi" (.num 3) _ rfl⟩

/-- Concrete, fully populated Airtable configuration used by witnesses. -/
def cfgStd : AirtableCfg :=
  { apiKey := some "key", crmBase := some "base", leadsTable := some "leads",
    activitiesTable := some "acts", tasksTable := some "tasks" }

/-! Claim C3 — StatusUpdate rejects invalid statuses. -/

/-- C3, counterexample: the empty string is outside the valid-status set,
yet `if update.new_status:` treats it as falsey, so validation is skipped
entirely: the executor issues a PATCH (a store write) and reports
`status="updated"` instead of the claimed descriptive error. -/
theorem status_update_empty_status_counterexample :
    ("" ∉ validStatuses) ∧
    update_airtable_lead_status cfgStd "T"
        { new_status := some "", raw_transcription := "t" } "rec1" "Bob"
        (.exn "unused") (.resp 200 (.ok .null)) =
      (.ok { status := "updated", intent := "status_update", record_id := some "rec1",
             record_name := some "Bob", fields_populated := [],
             message := "Updated Bob status to \x27\x27",
             airtable_url := some "https://airtable.com/base/leads/rec1" },
       [.patch "https://api.airtable.com/v0/base/leads/rec1" []]) :=
  ⟨by decide, rfl⟩

/-- C3, amended: for every extracted status update whose `new_status` is a
non-empty string outside `\x7bNew, Contacted, Qualified, Converted to
Opportunity, Lost\x7d`, the executor (with the store configured) returns an
error result whose message lists the valid values and issues no store
request at all. -/
theorem status_update_rejects_invalid_nonempty_status
    (cfg : AirtableCfg) (now : String) (upd : ExtractedStatusUpdate)
    (lead_id lead_name : String) (getO patchO : HttpOutcome) (s : String)
    (hcfg : leadsCfgOK cfg = true) (hs : upd.new_status = some s)
    (hne : s ≠ "") (hval : s ∉ validStatuses) :
    update_airtable_lead_status cfg now upd lead_id lead_name getO patchO =
      (.ok { status := "error", intent := "status_update",
             message := "Invalid status \x27" ++ s ++
               "\x27. Valid options: New, Contacted, Qualified, Converted to Opportunity, Lost",
             fields_populated := [] }, []) := by
  simp [update_airtable_lead_status, hcfg, hs, truthyOpt, hne, hval]

/-- C3, witness for `status_update_rejects_invalid_nonempty_status` at the
concrete invalid status `"banana"`. -/
theorem status_update_rejects_invalid_nonempty_status_witness :
    update_airtable_lead_status cfgStd "T"
        { new_status := some "banana", raw_transcription := "t" } "rec1" "Bob"
        (.exn "u") (.exn "u") =
      (.ok { status := "error", intent := "status_update",
             message := "Invalid status \x27banana\x27. Valid options: New, Contacted, Qualified, Converted to Opportunity, Lost",
             fields_populated := [] }, []) :=
  status_update_rejects_invalid_nonempty_status cfgStd "T"
    { new_status := some "banana", raw_transcription := "t" } "rec1" "Bob"
    (.exn "u") (.exn "u") "banana" rfl rfl (by decide) (by decide)

/-! Claim C4 — entity resolver contract. -/

/-- C4: with the store configured, `find_lead_by_identifier` issues exactly
one lookup whose `maxRecords` parameter is 5; it returns `none` on a
transport exception, on a non-200 response, on a body that fails to parse,
and when zero candidates are returned; and when the response carries a
non-empty record list it returns the first candidate (id, `Customer Name`
with default `"Unknown"`, and fields) — so callers cannot distinguish
"no match" from "lookup failed". -/
theorem find_lead_contract (cfg : AirtableCfg) (identifier : String)
    (http : HttpOutcome) (hcfg : leadsCfgOK cfg = true) :
    ((find_lead_by_identifier cfg identifier http).2 =
      [.listGet (apiUrl cfg cfg.leadsTable) (searchFormula identifier) 5]) ∧
    (∀ e, http = .exn e → (find_lead_by_identifier cfg identifier http).1 = none) ∧
    (∀ c b, http = .resp c b → c ≠ 200 →
      (find_lead_by_identifier cfg identifier http).1 = none) ∧
    (∀ e, http = .resp 200 (.error e) →
      (find_lead_by_identifier cfg identifier http).1 = none) ∧
    (∀ kvs, http = .resp 200 (.ok (.obj kvs)) →
      objGetD kvs "records" (.arr []) = .arr [] →
      (find_lead_by_identifier cfg identifier http).1 = none) ∧
    (∀ kvs rkvs rs fkvs, http = .resp 200 (.ok (.obj kvs)) →
      objGetD kvs "records" (.arr []) = .arr (.obj rkvs :: rs) →
      objGetD rkvs "fields" (.obj []) = .obj fkvs →
      (find_lead_by_identifier cfg identifier http).1 =
        some { id := objGetD rkvs "id" .null,
               name := objGetD fkvs "Customer Name" (.str "Unknown"),
               fields := .obj fkvs }) := by
  refine ⟨by simp [find_lead_by_identifier, hcfg], ?_, ?_, ?_, ?_, ?_⟩
  · rintro e rfl
    simp [find_lead_by_identifier, hcfg]
  · rintro c b rfl hc
    simp only [find_lead_by_identifier, hcfg, Bool.not_true, Bool.false_eq_true, if_false]
    split
    · rfl
    · rfl
    · simp_all
    · rfl
  · rintro e rfl
    simp [find_lead_by_identifier, hcfg]
  · rintro kvs rfl hrec
    simp [find_lead_by_identifier, hcfg, extractFirstLead, pyGetD, hrec, pyTruthy,
      Bind.bind, Except.bind, pure, Except.pure]
  · rintro kvs rkvs rs fkvs rfl hrec hflds
    simp [find_lead_by_identifier, hcfg, extractFirstLead, pyGetD, hrec, hflds, pyTruthy,
      pyIndex0, Bind.bind, Except.bind, pure, Except.pure]

/-- C4, witness for `find_lead_contract`: a concrete search response with
one candidate yields that candidate, over a single `maxRecords = 5`
request; a concrete transport failure yields `none`. -/
theorem find_lead_contract_witness :
    ((find_lead_by_identifier cfgStd "Bob"
        (.resp 200 (.ok (.obj [("records", .arr [.obj [("id", JVal.str "rec1")]])])))).2 =
      [.listGet (apiUrl cfgStd cfgStd.leadsTable) (searchFormula "Bob") 5]) ∧
    ((find_lead_by_identifier cfgStd "Bob"
        (.resp 200 (.ok (.obj [("records", .arr [.obj [("id", JVal.str "rec1")]])])))).1 =
      some { id := objGetD [("id", JVal.str "rec1")] "id" .null,
             name := objGetD [] "Customer Name" (.str "Unknown"),
             fields := .obj [] }) ∧
    ((find_lead_by_identifier cfgStd "Bob" (.exn "timeout")).1 = none) :=
  ⟨(find_lead_contract cfgStd "Bob" _ rfl).1,
   (find_lead_contract cfgStd "Bob" _ rfl).2.2.2.2.2
     [("records", .arr [.obj [("id", JVal.str "rec1")]])]
     [("id", JVal.str "rec1")] [] [] rfl rfl rfl,
   (find_lead_contract cfgStd "Bob" (.exn "timeout") rfl).2.1 "timeout" rfl⟩

/-! Claim C5 — CreateLead default/validation policy. -/

/-- C5: with the store configured, `create_airtable_lead` sends exactly one
POST whose field set always carries `Status = "New"`; a present (truthy)
extracted lead source outside the closed vocabulary is sent as `"Other"`
and marked as mapped in `fields_populated`; and the notes field always ends
with the timestamped verbatim utterance, concatenated after any extracted
notes rather than overwriting them. -/
theorem create_lead_field_policy (cfg : AirtableCfg) (lead : ExtractedLead)
    (now : String) (postO : HttpOutcome) (hcfg : leadsCfgOK cfg = true) :
    ((create_airtable_lead cfg lead now postO).2 =
      [.post (apiUrl cfg cfg.leadsTable) (buildLeadFields lead now).1]) ∧
    (dictGet? (buildLeadFields lead now).1 "Status" = some (.str "New")) ∧
    (∀ s, lead.lead_source = some s → s ≠ "" → s ∉ validSources →
      dictGet? (buildLeadFields lead now).1 "Lead Source" = some (.str "Other") ∧
      "Lead Source (mapped to Other)" ∈ (buildLeadFields lead now).2) ∧
    (∀ n, lead.initial_notes = some n → n ≠ "" →
      dictGet? (buildLeadFields lead now).1 "Initial Notes" =
        some (.str (n ++ "\n" ++
          ("\n\n---\nVoice transcription (" ++ now ++ "):\n" ++ lead.raw_transcription)))) ∧
    (truthyOpt lead.initial_notes = false →
      dictGet? (buildLeadFields lead now).1 "Initial Notes" =
        some (.str ("\n\n---\nVoice transcription (" ++ now ++ "):\n" ++ lead.raw_transcription))) := by
  refine ⟨by simp [create_airtable_lead, hcfg], buildLeadFields_status lead now,
    fun s hsrc hne hnot => buildLeadFields_source_other lead now s hsrc hne hnot,
    fun n hn hne => ?_, fun hfalse => ?_⟩
  · have ht : truthyOpt lead.initial_notes = true := by simp [truthyOpt, hn, hne]
    rw [buildLeadFields_notes, ht, hn]
    simp
  · rw [buildLeadFields_notes, hfalse]
    simp

/-- Concrete lead used by the C5 witness: source `"Billboard"` is outside
the closed vocabulary, and extracted notes are present. -/
def leadBillboard : ExtractedLead :=
  { lead_source := some "Billboard", initial_notes := some "wants doors",
    raw_transcription := "call from Sam" }

/-- C5, witness for `create_lead_field_policy` at `leadBillboard`. -/
theorem create_lead_field_policy_witness :
    ((create_airtable_lead cfgStd leadBillboard "T" (.exn "u")).2 =
      [.post (apiUrl cfgStd cfgStd.leadsTable) (buildLeadFields leadBillboard "T").1]) ∧
    (dictGet? (buildLeadFields leadBillboard "T").1 "Status" = some (.str "New")) ∧
    (dictGet? (buildLeadFields leadBillboard "T").1 "Lead Source" = some (.str "Other")) ∧
    ("Lead Source (mapped to Other)" ∈ (buildLeadFields leadBillboard "T").2) ∧
    (dictGet? (buildLeadFields leadBillboard "T").1 "Initial Notes" =
      some (.str ("wants doors" ++ "\n" ++
        ("\n\n---\nVoice transcription (" ++ "T" ++ "):\n" ++ "call from Sam")))) :=
  ⟨(create_lead_field_policy cfgStd leadBillboard "T" (.exn "u") rfl).1,
   (create_lead_field_policy cfgStd leadBillboard "T" (.exn "u") rfl).2.1,
   ((create_lead_field_policy cfgStd leadBillboard "T" (.exn "u") rfl).2.2.1 "Billboard" rfl
     (by decide) (by decide)).1,
   ((create_lead_field_policy cfgStd leadBillboard "T" (.exn "u") rfl).2.2.1 "Billboard" rfl
     (by decide) (by decide)).2,
   (create_lead_field_policy cfgStd leadBillboard "T" (.exn "u") rfl).2.2.2.1 "wants doors" rfl
     (by decide)⟩

/-! Claim C6 — StatusUpdate read-modify-write in a single PATCH. -/

/-- C6: with the store configured, a valid new status and a truthy extracted
reason, the executor first issues a GET for the entity, and — when that
read succeeds with notes `en` — issues exactly one further request: a PATCH
carrying both the status change and the updated notes
(`en` with the timestamped status-change annotation appended); no second
write is ever issued. -/
theorem status_update_reason_single_patch (cfg : AirtableCfg) (now : String)
    (upd : ExtractedStatusUpdate) (lead_id lead_name : String)
    (patchO : HttpOutcome) (s r : String) (b : JVal) (en : String)
    (hcfg : leadsCfgOK cfg = true)
    (hs : upd.new_status = some s) (hmem : s ∈ validStatuses)
    (hr : upd.reason = some r) (hrne : r ≠ "")
    (hen : existingInitialNotes b = .ok en) :
    (update_airtable_lead_status cfg now upd lead_id lead_name
        (.resp 200 (.ok b)) patchO).2 =
      [.recGet (apiUrl cfg cfg.leadsTable ++ "/" ++ lead_id),
       .patch (apiUrl cfg cfg.leadsTable ++ "/" ++ lead_id)
         [("Status", .str s),
          ("Initial Notes", .str (en ++
            ("\n\n---\nStatus changed to \x27" ++ s ++ "\x27 (" ++ now ++ "):\n" ++ r)))]] := by
  have hsne : s ≠ "" := by
    intro h
    rw [h] at hmem
    simp [validStatuses] at hmem
  simp [update_airtable_lead_status, hcfg, hs, truthyOpt, hsne, hmem,
    statusUpdatePhase2, hr, hrne, hen, showOpt, dictSet]

/-- C6, witness for `status_update_reason_single_patch`: a concrete update
to `"Lost"` with reason `"budget"` over existing notes `"old"`. -/
theorem status_update_reason_single_patch_witness :
    (update_airtable_lead_status cfgStd "T"
        { new_status := some "Lost", reason := some "budget", raw_transcription := "t" }
        "rec1" "Bob"
        (.resp 200 (.ok (.obj [("fields", .obj [("Initial Notes", JVal.str "old")])])))
        (.resp 200 (.ok .null))).2 =
      [.recGet (apiUrl cfgStd cfgStd.leadsTable ++ "/" ++ "rec1"),
       .patch (apiUrl cfgStd cfgStd.leadsTable ++ "/" ++ "rec1")
         [("Status", .str "Lost"),
          ("Initial Notes", .str ("old" ++
            ("\n\n---\nStatus changed to \x27" ++ "Lost" ++ "\x27 (" ++ "T" ++ "):\n" ++ "budget")))]] :=
  status_update_reason_single_patch cfgStd "T"
    { new_status := some "Lost", reason := some "budget", raw_transcription := "t" }
    "rec1" "Bob" (.resp 200 (.ok .null)) "Lost" "budget"
    (.obj [("fields", .obj [("Initial Notes", JVal.str "old")])]) "old"
    rfl rfl (by decide) rfl (by decide) rfl

/-! Claim C7 — router skips unknown intents. -/

/-- C7: whenever the classified intent is `unknown` or any unrecognized
value, `wispr_webhook` returns the terminal `status="skipped"` envelope and
performs no further component invocation — no extractor runs and no store
request is issued (the event trace is exactly the one classification). -/
theorem router_unknown_skipped (cfg : AirtableCfg) (now tomorrow : String)
    (o : RouterOracles) (p : WisprWebhook)
    (h : (classify_intent p.transcription o.classifyO).intent ∉
      (["new_lead", "call_note", "status_update", "task"] : List String)) :
    wispr_webhook cfg now tomorrow o p =
      (.ok [("status", .str "skipped"),
            ("intent", .str (classify_intent p.transcription o.classifyO).intent),
            ("confidence", .num (classify_intent p.transcription o.classifyO).confidence),
            ("message", .str ("Intent \x27" ++ (classify_intent p.transcription o.classifyO).intent ++
              "\x27 not recognized."))],
       [.classifyCall]) := by
  simp only [List.mem_cons, List.not_mem_nil, or_false, not_or] at h
  obtain ⟨h1, h2, h3, h4⟩ := h
  simp [wispr_webhook, h1, h2, h3, h4]

/-- Concrete oracle bundle for the C7 witness: the classifier call fails
(yielding intent `"unknown"`); all other outcomes are irrelevant. -/
def oraclesSkip : RouterOracles :=
  { classifyO := .callError "boom", extractLeadO := .parsed .null,
    extractCallNoteO := .parsed .null, extractStatusO := .parsed .null,
    extractTaskO := .parsed .null, findO := .exn "u", createO := .exn "u",
    getRecO := .exn "u", patchO := .exn "u" }

/-- C7, witness for `router_unknown_skipped` on the utterance
`"The weather is nice today"` with a failed classification. -/
theorem router_unknown_skipped_witness :
    wispr_webhook cfgStd "T" "TM" oraclesSkip { transcription := "The weather is nice today" } =
      (.ok [("status", .str "skipped"),
            ("intent", .str (classify_intent "The weather is nice today" oraclesSkip.classifyO).intent),
            ("confidence", .num (classify_intent "The weather is nice today" oraclesSkip.classifyO).confidence),
            ("message", .str ("Intent \x27" ++
              (classify_intent "The weather is nice today" oraclesSkip.classifyO).intent ++
              "\x27 not recognized."))],
       [.classifyCall]) :=
  router_unknown_skipped cfgStd "T" "TM" oraclesSkip
    { transcription := "The weather is nice today" } (by decide)

/-! Claim C9 — preview endpoint (code bug). -/

/-- C9: `preview_lead` indeed performs no store mutation on any input (its
event trace never contains a store request), but the claimed success path
is unreachable: the endpoint compares the classified intent against the
literal `"create_lead"`, which the classifier's closed vocabulary
(`new_lead`/`call_note`/`status_update`/`task`/`unknown`) never produces.
At the failing input below the classification is exactly `"new_lead"`, yet
the response carries `success = false` and no extraction is performed,
contradicting the claim that a NewLead preview returns the extracted field
set for review. -/
theorem preview_new_lead_never_succeeds :
    (∀ t co eo, ((preview_lead t co eo).2.all fun e =>
      match e with
      | .store _ => false
      | _ => true) = true) ∧
    (classify_intent "Got a call from Sarah Johnson, new customer interested in doors"
        (.parsed (.obj [("intent", JVal.str "new_lead"), ("confidence", JVal.num (19/20))]))).intent
      = "new_lead" ∧
    (preview_lead "Got a call from Sarah Johnson, new customer interested in doors"
        (.parsed (.obj [("intent", JVal.str "new_lead"), ("confidence", JVal.num (19/20))]))
        (.parsed (.obj [("customer_name", JVal.str "Sarah Johnson")]))).1.lookup "success"
      = some (.bool false) ∧
    (preview_lead "Got a call from Sarah Johnson, new customer interested in doors"
        (.parsed (.obj [("intent", JVal.str "new_lead"), ("confidence", JVal.num (19/20))]))
        (.parsed (.obj [("customer_name", JVal.str "Sarah Johnson")]))).2
      = [.classifyCall] := by
  refine ⟨fun t co eo => ?_, rfl, rfl, rfl⟩
  by_cases h : (classify_intent t co).intent = "create_lead" <;> simp [preview_lead, h]

/-! Claim C8 — record ids on successful results. -/

/-- C8, counterexample: a store 200-response whose body lacks an `id` field
yields `status="created"` with a null `record_id` — the claimed invariant
"created/updated always carries a non-null recordId" fails on the code for
such a store response. -/
theorem created_without_record_id_counterexample :
    (create_airtable_lead cfgStd { raw_transcription := "t" } "T"
        (.resp 200 (.ok (.obj [])))).1.status = "created" ∧
    (create_airtable_lead cfgStd { raw_transcription := "t" } "T"
        (.resp 200 (.ok (.obj [])))).1.record_id = none :=
  ⟨rfl, rfl⟩

theorem statusPatch_updated (cfg : AirtableCfg) (upd : ExtractedStatusUpdate)
    (lead_id lead_name : String) (pop : List String) (patchO : HttpOutcome)
    (h : (statusPatch cfg upd lead_id lead_name pop patchO).status = "updated") :
    (statusPatch cfg upd lead_id lead_name pop patchO).record_id = some lead_id := by
  unfold statusPatch at h ⊢
  split
  · simp at h
  · rfl
  · simp at h

/-- C8, amended: an `updated` result of the StatusUpdate executor always
carries `record_id = some lead_id` (non-null); and each create executor's
`created` result carries the `id` read from the store's response body, so
it is non-null whenever that body supplies a string `id` (and null exactly
when the body omits it, as in the counterexample). -/
theorem record_id_on_success :
    (∀ cfg now upd lead_id lead_name getO patchO r reqs,
      update_airtable_lead_status cfg now upd lead_id lead_name getO patchO = (.ok r, reqs) →
      r.status = "updated" → r.record_id = some lead_id) ∧
    (∀ cfg lead now kvs s, leadsCfgOK cfg = true →
      objGetD kvs "id" .null = JVal.str s →
      (create_airtable_lead cfg lead now (.resp 200 (.ok (.obj kvs)))).1.status = "created" ∧
      (create_airtable_lead cfg lead now (.resp 200 (.ok (.obj kvs)))).1.record_id = some s) ∧
    (∀ cfg note lid now kvs s, activitiesCfgOK cfg = true →
      objGetD kvs "id" .null = JVal.str s →
      (create_airtable_activity cfg note lid now (.resp 200 (.ok (.obj kvs)))).1.status = "created" ∧
      (create_airtable_activity cfg note lid now (.resp 200 (.ok (.obj kvs)))).1.record_id = some s) ∧
    (∀ cfg task lid now tomorrow kvs s, tasksCfgOK cfg = true →
      objGetD kvs "id" .null = JVal.str s →
      (create_airtable_task cfg task lid now tomorrow (.resp 200 (.ok (.obj kvs)))).1.status = "created" ∧
      (create_airtable_task cfg task lid now tomorrow (.resp 200 (.ok (.obj kvs)))).1.record_id = some s) := by
  refine ⟨?_, ?_, ?_, ?_⟩
  · intro cfg now upd lead_id lead_name getO patchO r reqs hEq hst
    simp only [update_airtable_lead_status, statusUpdatePhase2] at hEq
    repeat' split at hEq
    all_goals simp only [Prod.mk.injEq, Except.ok.injEq] at hEq
    all_goals first
      | (obtain ⟨h1, h2⟩ := hEq; subst h1;
         first
           | (simp at hst; done)
           | exact statusPatch_updated _ _ _ _ _ _ hst)
      | exact absurd hEq.1 (by simp)
  · intro cfg lead now kvs s hcfg hid
    have hname := buildLeadFields_no_lead_name lead now
    simp [create_airtable_lead, hcfg, leadCreatedResponse, pyGetD, hid, vOptStr, hname,
      Bind.bind, Except.bind, pure, Except.pure]
  · intro cfg note lid now kvs s hcfg hid
    simp [create_airtable_activity, hcfg, activityCreatedResponse, pyGetD, hid, vOptStr,
      Bind.bind, Except.bind, pure, Except.pure]
  · intro cfg task lid now tomorrow kvs s hcfg hid
    simp [create_airtable_task, hcfg, taskCreatedResponse, pyGetD, hid, vOptStr,
      Bind.bind, Except.bind, pure, Except.pure]

/-- C8, witness for `record_id_on_success`: a concrete updated result and a
concrete created result both carry their ids. -/
theorem record_id_on_success_witness :
    ({ status := "updated", intent := "status_update", record_id := some "rec1",
       record_name := some "Bob", fields_populated := ["Status"],
       message := "Updated Bob status to \x27Lost\x27",
       airtable_url := some "https://airtable.com/base/leads/rec1" } :
        CreateRecordResponse).record_id = some "rec1" ∧
    (create_airtable_lead cfgStd { raw_transcription := "t" } "T"
        (.resp 200 (.ok (.obj [("id", JVal.str "recNew")])))).1.status = "created" ∧
    (create_airtable_lead cfgStd { raw_transcription := "t" } "T"
        (.resp 200 (.ok (.obj [("id", JVal.str "recNew")])))).1.record_id = some "recNew" :=
  ⟨record_id_on_success.1 cfgStd "T"
    { new_status := some "Lost", raw_transcription := "t" } "rec1" "Bob"
    (.exn "u") (.resp 200 (.ok .null)) _ _ rfl rfl,
   (record_id_on_success.2.1 cfgStd { raw_transcription := "t" } "T"
    [("id", JVal.str "recNew")] "recNew" rfl rfl).1,
   (record_id_on_success.2.1 cfgStd { raw_transcription := "t" } "T"
    [("id", JVal.str "recNew")] "recNew" rfl rfl).2⟩

/-! Claim C10 — the created-lead response name is always "Unknown". -/

theorem leadCreatedResponse_name_unknown (cfg : AirtableCfg) (lead : ExtractedLead)
    (f : List (String × FieldVal)) (p : List String) (data : JVal)
    (r : CreateLeadResponse) (hnone : dictGet? f "Lead Name" = none)
    (h : leadCreatedResponse cfg lead f p data = .ok r) :
    r.lead_name = some "Unknown" := by
  simp only [leadCreatedResponse, hnone, Bind.bind, Except.bind, pure, Except.pure] at h
  repeat' split at h
  all_goals first
    | (simp only [Except.ok.injEq] at h; subst h; rfl)
    | exact absurd h (by simp)

/-- C10: for every successful creation (`status="created"`), the response's
`lead_name` equals the literal `"Unknown"`: the executor never inserts a
`Lead Name` key into the field set it builds (the store computes that field
by formula), yet the response reads `lead_name` from that local field set
with `"Unknown"` as the fallback, so the response's record name never
reflects the created lead. -/
theorem create_lead_name_always_unknown :
    ∀ cfg lead now postO r reqs,
      create_airtable_lead cfg lead now postO = (r, reqs) →
      r.status = "created" → r.lead_name = some "Unknown" := by
  intro cfg lead now postO r reqs hEq hst
  simp only [create_airtable_lead] at hEq
  repeat' split at hEq
  all_goals simp only [Prod.mk.injEq, Except.ok.injEq] at hEq
  all_goals (obtain ⟨h1, h2⟩ := hEq; subst h1)
  all_goals first
    | (simp at hst)
    | exact leadCreatedResponse_name_unknown _ _ _ _ _ _
        (buildLeadFields_no_lead_name lead now) (by assumption)

/-- C10, witness for `create_lead_name_always_unknown`: a concrete created
response (store echoes an id) names the lead `"Unknown"`. -/
theorem create_lead_name_always_unknown_witness :
    (create_airtable_lead cfgStd leadBillboard "T"
        (.resp 200 (.ok (.obj [("id", JVal.str "recX")])))).1.lead_name = some "Unknown" :=
  create_lead_name_always_unknown cfgStd leadBillboard "T"
    (.resp 200 (.ok (.obj [("id", JVal.str "recX")]))) _ _ rfl rfl

end VTA
